import Mathlib

/-!
# Task-manager backend: shallow embedding and verification

This file embeds the data model and the operations of the task-manager
backend (Node/Express/PostgreSQL) in Lean 4 and proves properties of the
embedded code.

Embedding conventions:
* A database table is a `List` of row structures; the PostgreSQL `SERIAL`
  sequence is a `nextId` counter carried alongside the task table.
* JavaScript `undefined`/`null` request fields are `Option`; JS string
  truthiness (`""` is falsy) is made explicit via `truthy`/`jsOr`/`jsOrNull`.
* External effectful primitives are parameters: `hash` models
  `bcrypt.hash`, `cmp` models `bcrypt.compare`, `sign` models `jwt.sign`,
  `dateOk` models `!isNaN(new Date(s).getTime())`, and `now` models
  `CURRENT_TIMESTAMP`.
* An HTTP response `res.status(s).json(b)` is a constructor of a response
  inductive carrying the status code and the serialized fields.
-/

namespace TaskManager

/-! ## JavaScript-level helpers -/

/-- JS truthiness of a possibly-absent string value: `undefined`, `null`
and `""` are falsy, every other string is truthy. -/
def truthy (s : Option String) : Bool :=
  match s with
  | none => false
  | some v => v ≠ ""

/-- JS `v || d` for a possibly-absent string `v` and a string default `d`. -/
def jsOr (v : Option String) (d : String) : String :=
  match v with
  | none => d
  | some s => if s = "" then d else s

/-- JS `v || null` for a possibly-absent string `v`. -/
def jsOrNull (v : Option String) : Option String :=
  match v with
  | none => none
  | some s => if s = "" then none else some s

/-- Model of JS `String.prototype.trim()`: strip whitespace from both
ends.  (Defined over the character list so that it reduces inside the
kernel; `String.trim` computes the same characters.) -/
def jsTrim (s : String) : String :=
  ⟨((s.toList.dropWhile Char.isWhitespace).reverse.dropWhile
      Char.isWhitespace).reverse⟩

/-- Split a character list at every occurrence of `sep`, like
`String.splitOn` with a one-character separator. -/
def splitOnChar (sep : Char) : List Char → List (List Char)
  | [] => [[]]
  | c :: rest =>
    let r := splitOnChar sep rest
    if c = sep then [] :: r
    else
      match r with
      | [] => [[c]]
      | h :: t => (c :: h) :: t

/-- Whitespace recognized while skipping the front of a `parseInt` input. -/
def isJsSpace (c : Char) : Bool :=
  c = ' ' ∨ c = '\t' ∨ c = '\n' ∨ c = '\r' ∨ c = '\x0c' ∨ c = '\x0b'

/-- Accumulate a leading run of decimal digits; `none` when no digit was
consumed (the `NaN` case of `parseInt`). -/
def parseDecDigits : List Char → Nat → Bool → Option Nat
  | [], acc, found => if found then some acc else none
  | c :: rest, acc, found =>
    if c.isDigit then parseDecDigits rest (acc * 10 + (c.toNat - 48)) true
    else if found then some acc else none

/-- Value of a hexadecimal digit, `none` for a non-digit. -/
def hexVal (c : Char) : Option Nat :=
  if c.isDigit then some (c.toNat - 48)
  else if 'a' ≤ c ∧ c ≤ 'f' then some (c.toNat - 87)
  else if 'A' ≤ c ∧ c ≤ 'F' then some (c.toNat - 55)
  else none

/-- Accumulate a leading run of hexadecimal digits; `none` when no digit
was consumed. -/
def parseHexDigits : List Char → Nat → Bool → Option Nat
  | [], acc, found => if found then some acc else none
  | c :: rest, acc, found =>
    match hexVal c with
    | some v => parseHexDigits rest (acc * 16 + v) true
    | none => if found then some acc else none

/-- Body of the `parseInt` model, after leading whitespace has been
dropped: read an optional sign, then either a `0x`/`0X` hexadecimal
literal or a leading run of decimal digits; `none` models `NaN`.
Trailing garbage after the digits is ignored, as in JS. -/
def jsParseIntCore (cs : List Char) : Option Int :=
  let sign : Int := if cs.headD ' ' = '-' then -1 else 1
  let cs1 := if cs.headD ' ' = '-' ∨ cs.headD ' ' = '+' then cs.tail else cs
  let body : Option Nat :=
    if cs1.headD ' ' = '0' ∧ (cs1.tail.headD ' ' = 'x' ∨ cs1.tail.headD ' ' = 'X')
    then parseHexDigits cs1.tail.tail 0 false
    else parseDecDigits cs1 0 false
  body.map (fun n => sign * Int.ofNat n)

/-- Model of JS `parseInt(s)` with no radix argument, as applied to the
`:id` path parameter: skip leading whitespace, then parse with
`jsParseIntCore`. -/
def jsParseInt (s : String) : Option Int :=
  jsParseIntCore (s.toList.dropWhile isJsSpace)

/-! ## User store (`models/userModel.js`) -/

/-- A row of the `users` table:
`users(id, email UNIQUE, password_hash, name, created_at)`. -/
structure UserRow where
  id : Int
  email : String
  password_hash : String
  name : String
  created_at : Nat
deriving DecidableEq, Repr

/-- The record shape returned by the user-model `SELECT`s: the
`password_hash` column is `some` when the query selected it and `none`
when it did not. -/
structure UserRecord where
  id : Int
  email : String
  password_hash : Option String
  name : String
  created_at : Nat
deriving DecidableEq, Repr

/-- `createUser(email, password, name)`: hashes the password, then
`INSERT INTO users ... RETURNING id, email, name, created_at`.  The
`UNIQUE` constraint on `email` makes the insert fail (PostgreSQL error
`23505`, rethrown as `Email already exists`) when the email is already
stored; there is no application-level pre-check.  `hash` models
`bcrypt.hash` with its salt fixed, `nextId` the `users` id sequence and
`now` `CURRENT_TIMESTAMP`. -/
def createUser (hash : String → String) (db : List UserRow) (nextId : Int)
    (now : Nat) (email password name : String) :
    Except String (UserRecord × List UserRow) :=
  if db.any (fun r => r.email = email) then
    .error "Email already exists"
  else
    let row : UserRow :=
      { id := nextId, email := email, password_hash := hash password,
        name := name, created_at := now }
    .ok ({ id := row.id, email := row.email, password_hash := none,
           name := row.name, created_at := row.created_at }, db ++ [row])

/-- `findUserByEmail(email)`:
`SELECT id, email, password_hash, name, created_at FROM users WHERE email = $1`;
`null` when no row matches.  The password hash IS selected (the login
controller needs it for `bcrypt.compare`). -/
def findUserByEmail (db : List UserRow) (email : String) : Option UserRecord :=
  (db.find? (fun r => r.email = email)).map (fun r =>
    { id := r.id, email := r.email, password_hash := some r.password_hash,
      name := r.name, created_at := r.created_at })

/-- `findUserById(userId)`:
`SELECT id, email, name, created_at FROM users WHERE id = $1`; `null`
when no row matches.  The password hash is NOT selected. -/
def findUserById (db : List UserRow) (userId : Int) : Option UserRecord :=
  (db.find? (fun r => r.id = userId)).map (fun r =>
    { id := r.id, email := r.email, password_hash := none,
      name := r.name, created_at := r.created_at })

/-! ## Auth controller (`controllers/authController.js`) -/

/-- Model of the signup email regex `/^[^\s@]+@[^\s@]+\.[^\s@]+$/`:
the string is `a ++ "@" ++ b ++ "." ++ c` with `a`, `b`, `c` nonempty and
free of whitespace and `@` (dots are allowed in `b` and `c`).  Because no
part may contain `@`, the string has exactly one `@`; the domain part must
contain a `.` that is neither its first nor its last character. -/
def emailFormatOk (s : String) : Bool :=
  match splitOnChar '@' s.toList with
  | [lp, domain] =>
    lp ≠ [] ∧ lp.all (fun c => ¬ c.isWhitespace) ∧
    domain.all (fun c => ¬ c.isWhitespace) ∧
    (List.range domain.length).any (fun i =>
      domain.getD i 'x' = '.' ∧ 1 ≤ i ∧ i + 2 ≤ domain.length)
  | _ => false

/-- Responses of the auth endpoints (`res.status(s).json(...)`). -/
inductive AuthResp where
  | err (status : Nat) (error : String)
  | signedUp (status : Nat) (message : String) (id : Int) (email name : String)
  | loggedIn (status : Nat) (message : String) (token : String)
      (id : Int) (email name : String)
deriving DecidableEq, Repr

/-- `signup(req, res)`: requires email, password and name to be truthy,
checks the email regex and the 6-character password minimum, then calls
`createUser`; a duplicate email surfaces as `409 Email already exists`.
Returns the response together with the resulting `users` table. -/
def signup (hash : String → String) (db : List UserRow) (nextId : Int)
    (now : Nat) (email password name : Option String) :
    AuthResp × List UserRow :=
  if ¬ truthy email ∨ ¬ truthy password ∨ ¬ truthy name then
    (.err 400 "Email, password, and name are required", db)
  else if ¬ emailFormatOk (email.getD "") then
    (.err 400 "Invalid email format", db)
  else if (password.getD "").length < 6 then
    (.err 400 "Password must be at least 6 characters", db)
  else
    match createUser hash db nextId now (email.getD "") (password.getD "")
        (name.getD "") with
    | .error _ => (.err 409 "Email already exists", db)
    | .ok (u, db') =>
      (.signedUp 201 "User created successfully" u.id u.email u.name, db')

/-- `login(req, res)`: requires email and password to be truthy, looks the
user up by email and compares the password against the stored hash; both
the unknown-email and the wrong-password branches answer
`401 Invalid email or password`.  `cmp` models `bcrypt.compare` and
`sign` models `jwt.sign` on the `{userId, email}` payload. -/
def login (cmp : String → String → Bool) (sign : Int → String → String)
    (db : List UserRow) (email password : Option String) : AuthResp :=
  if ¬ truthy email ∨ ¬ truthy password then
    .err 400 "Email and password are required"
  else
    match findUserByEmail db (email.getD "") with
    | none => .err 401 "Invalid email or password"
    | some u =>
      if ¬ cmp (password.getD "") (u.password_hash.getD "") then
        .err 401 "Invalid email or password"
      else
        .loggedIn 200 "Login successful" (sign u.id u.email) u.id u.email u.name

/-! ## Task store (`models/taskModel.js`) -/

/-- A row of the `tasks` table:
`tasks(id, user_id FK, title, description, priority, status, due_date,
created_at, updated_at)`.  `description` and `due_date` are nullable. -/
structure TaskRow where
  id : Int
  user_id : Int
  title : String
  description : Option String
  priority : String
  due_date : Option String
  status : String
  created_at : Nat
  updated_at : Nat
deriving DecidableEq, Repr

/-- The `tasks` table together with its id sequence (`SERIAL`). -/
structure TaskDB where
  rows : List TaskRow
  nextId : Int
deriving DecidableEq, Repr

/-- The `taskData` object handed from the create controller to the model:
`{ title, description, priority, dueDate, status }`, every field but the
title possibly `undefined`. -/
structure TaskData where
  title : String
  description : Option String
  priority : Option String
  dueDate : Option String
  status : Option String
deriving DecidableEq, Repr

/-- `createTask(userId, taskData)`:
`INSERT INTO tasks (user_id, title, description, priority, due_date, status)
VALUES ... RETURNING *` with the JS defaults applied in the value list:
`description || null`, `priority || 'medium'`, `dueDate || null`,
`status || 'pending'`.  Returns the inserted row and the new table. -/
def createTask (db : TaskDB) (now : Nat) (userId : Int) (td : TaskData) :
    TaskRow × TaskDB :=
  let row : TaskRow :=
    { id := db.nextId, user_id := userId, title := td.title,
      description := jsOrNull td.description,
      priority := jsOr td.priority "medium",
      due_date := jsOrNull td.dueDate,
      status := jsOr td.status "pending",
      created_at := now, updated_at := now }
  (row, { rows := db.rows ++ [row], nextId := db.nextId + 1 })

/-- `getTaskById(taskId, userId)`:
`SELECT * FROM tasks WHERE id = $1 AND user_id = $2`; `null` when no row
matches both the id and the owner. -/
def getTaskById (db : TaskDB) (taskId userId : Int) : Option TaskRow :=
  db.rows.find? (fun r => r.id = taskId ∧ r.user_id = userId)

/-- The fields written by the update controller's `taskData` object: the
controller has already applied the defaults, so title, priority and
status are plain strings here. -/
structure UpdateFields where
  title : String
  description : Option String
  priority : String
  dueDate : Option String
  status : String
deriving DecidableEq, Repr

/-- The `SET` clause of the update statement, applied to a row when the
`WHERE id = $6 AND user_id = $7` condition matches it and leaving it
untouched otherwise. -/
def applyUpdate (now : Nat) (taskId userId : Int) (uf : UpdateFields)
    (r : TaskRow) : TaskRow :=
  if r.id = taskId ∧ r.user_id = userId then
    { r with
      title := uf.title,
      description := uf.description,
      priority := uf.priority,
      due_date := uf.dueDate,
      status := uf.status,
      updated_at := now }
  else r

/-- `updateTask(taskId, userId, taskData)`:
`UPDATE tasks SET title=$1, description=$2, priority=$3, due_date=$4,
status=$5, updated_at=CURRENT_TIMESTAMP WHERE id=$6 AND user_id=$7
RETURNING *`; `null` when no row matched both id and owner. -/
def updateTask (db : TaskDB) (now : Nat) (taskId userId : Int)
    (uf : UpdateFields) : Option TaskRow × TaskDB :=
  let rows' := db.rows.map (applyUpdate now taskId userId uf)
  (rows'.find? (fun r => r.id = taskId ∧ r.user_id = userId),
   { db with rows := rows' })

/-- `deleteTask(taskId, userId)`:
`DELETE FROM tasks WHERE id = $1 AND user_id = $2 RETURNING id`; the
boolean reports whether any row was deleted. -/
def deleteTask (db : TaskDB) (taskId userId : Int) : Bool × TaskDB :=
  (db.rows.any (fun r => r.id = taskId ∧ r.user_id = userId),
   { db with rows :=
       db.rows.filter (fun r => ¬ (r.id = taskId ∧ r.user_id = userId)) })

/-! ## Task controller (`controllers/taskController.js`) -/

/-- The request body of the task endpoints.  `bodyUserId` stands for a
`userId` field a client might smuggle into the JSON body; the controller
never destructures it. -/
structure TaskBody where
  title : Option String
  description : Option String
  priority : Option String
  dueDate : Option String
  status : Option String
  bodyUserId : Option Int
deriving DecidableEq, Repr

/-- The task JSON shape serialized by the controller
(`id, userId, title, description, priority, dueDate, status, createdAt,
updatedAt`). -/
structure TaskOut where
  id : Int
  userId : Int
  title : String
  description : Option String
  priority : String
  dueDate : Option String
  status : String
  createdAt : Nat
  updatedAt : Nat
deriving DecidableEq, Repr

/-- Controller serialization of a stored task row. -/
def toTaskOut (t : TaskRow) : TaskOut :=
  { id := t.id, userId := t.user_id, title := t.title,
    description := t.description, priority := t.priority,
    dueDate := t.due_date, status := t.status,
    createdAt := t.created_at, updatedAt := t.updated_at }

/-- Responses of the task endpoints. -/
inductive TaskResp where
  | err (status : Nat) (error : String)
  | created (status : Nat) (message : String) (task : TaskOut)
  | got (status : Nat) (task : TaskOut)
  | updated (status : Nat) (message : String) (task : TaskOut)
  | deletedOk (status : Nat) (message : String)
deriving DecidableEq, Repr

/-- `['low', 'medium', 'high']`. -/
def validPriorities : List String := ["low", "medium", "high"]

/-- `['pending', 'in_progress', 'completed']`. -/
def validStatuses : List String := ["pending", "in_progress", "completed"]

/-- `!title || title.trim() === ''`: the title is absent, falsy, or blank
after trimming. -/
def blankTitle (t : Option String) : Bool :=
  match t with
  | none => true
  | some s => s = "" ∨ jsTrim s = ""

/-- `v && !valid.includes(v)`: the field is truthy and not one of the
allowed enum values.  A falsy value (`undefined` or `""`) skips the
check. -/
def invalidEnum (valid : List String) (v : Option String) : Bool :=
  match v with
  | none => false
  | some s => s ≠ "" ∧ ¬ valid.contains s

/-- `dueDate && isNaN(new Date(dueDate).getTime())`: the due date is
truthy and unparseable under the date parser `dateOk`. -/
def badDate (dateOk : String → Bool) (v : Option String) : Bool :=
  match v with
  | none => false
  | some s => s ≠ "" ∧ ¬ dateOk s

/-- `create(req, res)`: validates title/priority/status/dueDate, then
inserts a task owned by `req.user.userId` (the verified token's user id)
and answers `201` with the stored row.  Returns the response and the
resulting table. -/
def create (dateOk : String → Bool) (db : TaskDB) (now : Nat)
    (tokenUserId : Int) (body : TaskBody) : TaskResp × TaskDB :=
  if blankTitle body.title then
    (.err 400 "Title is required", db)
  else if invalidEnum validPriorities body.priority then
    (.err 400 "Priority must be low, medium, or high", db)
  else if invalidEnum validStatuses body.status then
    (.err 400 "Status must be pending, in_progress, or completed", db)
  else if badDate dateOk body.dueDate then
    (.err 400 "Invalid due date format", db)
  else
    let td : TaskData :=
      { title := jsTrim (body.title.getD ""),
        description := body.description.map jsTrim,
        priority := body.priority,
        dueDate := body.dueDate,
        status := body.status }
    let res := createTask db now tokenUserId td
    (.created 201 "Task created successfully" (toTaskOut res.1), res.2)

/-- `getTask(req, res)`: `parseInt`s the `:id` path parameter (`NaN` gives
`400 Invalid task ID`), then fetches the task scoped to the caller; a
miss — nonexistent id or foreign owner — gives `404 Task not found`. -/
def getTask (db : TaskDB) (tokenUserId : Int) (idParam : String) : TaskResp :=
  match jsParseInt idParam with
  | none => .err 400 "Invalid task ID"
  | some taskId =>
    match getTaskById db taskId tokenUserId with
    | none => .err 404 "Task not found"
    | some t => .got 200 (toTaskOut t)

/-- `update(req, res)`: `parseInt`s the id, runs the same validation as
`create`, then performs a full-record replace with
`description?.trim() || null`, `priority || 'medium'`,
`dueDate || null`, `status || 'pending'`; a miss gives
`404 Task not found`. -/
def update (dateOk : String → Bool) (db : TaskDB) (now : Nat)
    (tokenUserId : Int) (idParam : String) (body : TaskBody) :
    TaskResp × TaskDB :=
  match jsParseInt idParam with
  | none => (.err 400 "Invalid task ID", db)
  | some taskId =>
    if blankTitle body.title then
      (.err 400 "Title is required", db)
    else if invalidEnum validPriorities body.priority then
      (.err 400 "Priority must be low, medium, or high", db)
    else if invalidEnum validStatuses body.status then
      (.err 400 "Status must be pending, in_progress, or completed", db)
    else if badDate dateOk body.dueDate then
      (.err 400 "Invalid due date format", db)
    else
      let uf : UpdateFields :=
        { title := jsTrim (body.title.getD ""),
          description := jsOrNull (body.description.map jsTrim),
          priority := jsOr body.priority "medium",
          dueDate := jsOrNull body.dueDate,
          status := jsOr body.status "pending" }
      let res := updateTask db now taskId tokenUserId uf
      match res.1 with
      | none => (.err 404 "Task not found", res.2)
      | some t => (.updated 200 "Task updated successfully" (toTaskOut t), res.2)

/-- `remove(req, res)`: `parseInt`s the id, deletes the task scoped to the
caller; if no row was removed the answer is `404 Task not found`,
otherwise `200 Task deleted successfully`. -/
def remove (db : TaskDB) (tokenUserId : Int) (idParam : String) :
    TaskResp × TaskDB :=
  match jsParseInt idParam with
  | none => (.err 400 "Invalid task ID", db)
  | some taskId =>
    let res := deleteTask db taskId tokenUserId
    if res.1 then (.deletedOk 200 "Task deleted successfully", res.2)
    else (.err 404 "Task not found", res.2)

/-! ## Concrete stores for witnesses and counterexamples -/

/-- A one-user store: user 1, email `a@b.c`, stored password hash `"h"`. -/
def demoUsers : List UserRow :=
  [{ id := 1, email := "a@b.c", password_hash := "h", name := "A",
     created_at := 0 }]

/-- An empty tasks table whose id sequence is at 1. -/
def emptyTaskDB : TaskDB := { rows := [], nextId := 1 }

/-- A concrete stored task with id 1 owned by user 7. -/
def demoTaskRow : TaskRow :=
  { id := 1, user_id := 7, title := "Buy milk", description := none,
    priority := "medium", due_date := none, status := "pending",
    created_at := 0, updated_at := 0 }

/-- A one-task table holding `demoTaskRow`, id sequence at 2. -/
def demoTaskDB : TaskDB := { rows := [demoTaskRow], nextId := 2 }

/-- A request body with only a title, used by witnesses. -/
def titleOnlyBody : TaskBody :=
  { title := some "T", description := none, priority := none,
    dueDate := none, status := none, bodyUserId := none }

/-! ## C1: password-hash exposure through the read-access finders -/

/-- C1 counterexample: on a store holding user `a@b.c` with password hash
`"h"`, `findUserByEmail` returns a record that DOES carry the password
hash (its `SELECT` includes the `password_hash` column for login
verification), so the claim that neither finder ever returns the hash is
false as stated. -/
theorem c1_counterexample :
    (findUserByEmail demoUsers "a@b.c").map UserRecord.password_hash
      = some (some "h") ∧
    (findUserByEmail demoUsers "a@b.c").map UserRecord.password_hash
      ≠ some none := by decide

/-- C1 (amended): `findUserById` never returns the password hash — its
projection omits the column — while `findUserByEmail` returns the full
record including the stored password hash. -/
theorem c1_hash_projection (db : List UserRow) (userId : Int)
    (email : String) :
    (∀ u, findUserById db userId = some u → u.password_hash = none) ∧
    (∀ u, findUserByEmail db email = some u →
      ∃ r, r ∈ db ∧ r.email = email ∧ u.password_hash = some r.password_hash) := by
  constructor
  · intro u hu
    unfold findUserById at hu
    rw [Option.map_eq_some'] at hu
    obtain ⟨r, _, rfl⟩ := hu
    rfl
  · intro u hu
    unfold findUserByEmail at hu
    rw [Option.map_eq_some'] at hu
    obtain ⟨r, hfind, rfl⟩ := hu
    have hp := List.find?_some hfind
    refine ⟨r, List.mem_of_find?_eq_some hfind, ?_, rfl⟩
    simpa using hp

/-- C1 witness: the amended theorem applied to the concrete one-user
store, at the record `findUserById` actually returns for id 1. -/
theorem c1_hash_projection_witness :
    ({ id := 1, email := "a@b.c", password_hash := none, name := "A",
        created_at := 0 } : UserRecord).password_hash = none :=
  (c1_hash_projection demoUsers 1 "a@b.c").1
    { id := 1, email := "a@b.c", password_hash := none, name := "A",
      created_at := 0 }
    (by decide)

/-! ## C5: login failure is uniform across unknown email / wrong password -/

/-- C5: a login attempt for an email with no stored user and a login
attempt for a stored email with a non-matching password produce the
identical response — status 401 with body `Invalid email or password` —
so the two failure causes are indistinguishable. -/
theorem c5_login_uniform_failure (cmp : String → String → Bool)
    (sign : Int → String → String) (db₁ db₂ : List UserRow)
    (e₁ p₁ e₂ p₂ : Option String) (u : UserRecord)
    (he₁ : truthy e₁ = true) (hp₁ : truthy p₁ = true)
    (he₂ : truthy e₂ = true) (hp₂ : truthy p₂ = true)
    (hmiss : findUserByEmail db₁ (e₁.getD "") = none)
    (hhit : findUserByEmail db₂ (e₂.getD "") = some u)
    (hwrong : cmp (p₂.getD "") (u.password_hash.getD "") = false) :
    login cmp sign db₁ e₁ p₁ = login cmp sign db₂ e₂ p₂ ∧
    login cmp sign db₁ e₁ p₁ = .err 401 "Invalid email or password" := by
  have h₁ : login cmp sign db₁ e₁ p₁ = .err 401 "Invalid email or password" := by
    unfold login
    rw [if_neg (by simp [he₁, hp₁]), hmiss]
  have h₂ : login cmp sign db₂ e₂ p₂ = .err 401 "Invalid email or password" := by
    unfold login
    rw [if_neg (by simp [he₂, hp₂]), hhit]
    simp [hwrong]
  exact ⟨h₁.trans h₂.symm, h₁⟩

/-- C5 witness: unknown email `z@b.c` on the empty store versus wrong
password for the stored user `a@b.c`; both answers coincide and equal
the generic 401. -/
theorem c5_login_uniform_failure_witness :
    login (fun _ _ => false) (fun _ _ => "t") [] (some "z@b.c") (some "p")
      = login (fun _ _ => false) (fun _ _ => "t") demoUsers (some "a@b.c")
          (some "p") ∧
    login (fun _ _ => false) (fun _ _ => "t") [] (some "z@b.c") (some "p")
      = .err 401 "Invalid email or password" :=
  c5_login_uniform_failure (fun _ _ => false) (fun _ _ => "t") [] demoUsers
    (some "z@b.c") (some "p") (some "a@b.c") (some "p")
    { id := 1, email := "a@b.c", password_hash := some "h", name := "A",
      created_at := 0 }
    (by decide) (by decide) (by decide) (by decide) (by decide) (by decide)
    rfl

/-! ## C7: duplicate signup yields 409 and leaves the store unchanged -/

/-- C7: a signup for an email that already exists in the user store — the
request being otherwise well-formed — fails with the storage-surfaced
uniqueness violation mapped to `409 Email already exists`, and the user
table is returned unchanged: no row is created. -/
theorem c7_duplicate_email_conflict (hash : String → String)
    (db : List UserRow) (nextId : Int) (now : Nat)
    (email password name : String)
    (hne : email ≠ "") (hnp : password ≠ "") (hnn : name ≠ "")
    (hfmt : emailFormatOk email = true) (hlen : 6 ≤ password.length)
    (r : UserRow) (hr : r ∈ db) (hre : r.email = email) :
    signup hash db nextId now (some email) (some password) (some name)
      = (.err 409 "Email already exists", db) := by
  have hdup : db.any (fun s => s.email = email) = true := by
    rw [List.any_eq_true]
    exact ⟨r, hr, by simp [hre]⟩
  have h6 : ¬ password.length < 6 := by omega
  simp [signup, createUser, truthy, hne, hnp, hnn, hfmt, h6, hdup]

/-- C7 witness: a second signup for `a@b.c` on the one-user store answers
409 and leaves the store as it was. -/
theorem c7_duplicate_email_conflict_witness :
    signup (fun _ => "H") demoUsers 2 9 (some "a@b.c") (some "secret7")
        (some "B")
      = (.err 409 "Email already exists", demoUsers) :=
  c7_duplicate_email_conflict (fun _ => "H") demoUsers 2 9 "a@b.c" "secret7"
    "B" (by decide) (by decide) (by decide) (by decide) (by decide)
    { id := 1, email := "a@b.c", password_hash := "h", name := "A",
      created_at := 0 }
    (by decide) rfl

/-! ## C2: validation rejects invalid values, defaults only for absent ones -/

/-- C2 counterexample: a create request whose priority, status and due
date are all PRESENT with the invalid value `""` (outside both enums, and
unparseable under a date parser that accepts nothing) is not rejected:
JS falsiness skips every check and the empty values are silently replaced
by the defaults, answering 201. -/
theorem c2_counterexample :
    (create (fun _ => false) emptyTaskDB 5 7
      { title := some "T", description := none, priority := some "",
        dueDate := some "", status := some "", bodyUserId := none }).1
    = .created 201 "Task created successfully"
        { id := 1, userId := 7, title := "T", description := none,
          priority := "medium", dueDate := none, status := "pending",
          createdAt := 5, updatedAt := 5 } := by decide

/-- C2 (amended): for create and update requests with a valid title, any
present NON-EMPTY priority outside `{low, medium, high}`, any present
non-empty status outside `{pending, in_progress, completed}`, and any
present non-empty unparseable due date is rejected with a 400 validation
error leaving the table unchanged; an empty-string value, though present,
is treated like an absent field (JS falsiness) and — like an absent
field — silently receives the default (priority medium, status pending,
dueDate null). -/
theorem c2_validation_rejects_nonempty (dateOk : String → Bool)
    (db : TaskDB) (now : Nat) (u : Int) (body : TaskBody) (idParam : String)
    (t : Int) (hparse : jsParseInt idParam = some t)
    (htitle : blankTitle body.title = false) :
    (∀ p, body.priority = some p → p ≠ "" → p ∉ validPriorities →
      create dateOk db now u body
        = (.err 400 "Priority must be low, medium, or high", db) ∧
      update dateOk db now u idParam body
        = (.err 400 "Priority must be low, medium, or high", db)) ∧
    (invalidEnum validPriorities body.priority = false →
     ∀ s, body.status = some s → s ≠ "" → s ∉ validStatuses →
      create dateOk db now u body
        = (.err 400 "Status must be pending, in_progress, or completed", db) ∧
      update dateOk db now u idParam body
        = (.err 400 "Status must be pending, in_progress, or completed", db)) ∧
    (invalidEnum validPriorities body.priority = false →
     invalidEnum validStatuses body.status = false →
     ∀ d, body.dueDate = some d → d ≠ "" → dateOk d = false →
      create dateOk db now u body = (.err 400 "Invalid due date format", db) ∧
      update dateOk db now u idParam body
        = (.err 400 "Invalid due date format", db)) ∧
    (body.priority = none → body.status = none → body.dueDate = none →
      ∃ out db', create dateOk db now u body
          = (.created 201 "Task created successfully" out, db') ∧
        out.priority = "medium" ∧ out.status = "pending" ∧
        out.dueDate = none) := by
  refine ⟨?_, ?_, ?_, ?_⟩
  · intro p hp hpne hpbad
    have hinv : invalidEnum validPriorities body.priority = true := by
      unfold invalidEnum
      rw [hp]
      simp [hpne, hpbad]
    constructor
    · simp [create, htitle, hinv]
    · simp [update, hparse, htitle, hinv]
  · intro hpok s hs hsne hsbad
    have hinv : invalidEnum validStatuses body.status = true := by
      unfold invalidEnum
      rw [hs]
      simp [hsne, hsbad]
    constructor
    · simp [create, htitle, hpok, hinv]
    · simp [update, hparse, htitle, hpok, hinv]
  · intro hpok hsok d hd hdne hdbad
    have hinv : badDate dateOk body.dueDate = true := by
      unfold badDate
      rw [hd]
      simp [hdne, hdbad]
    constructor
    · simp [create, htitle, hpok, hsok, hinv]
    · simp [update, hparse, htitle, hpok, hsok, hinv]
  · intro hp hs hd
    unfold create
    rw [if_neg (by simp [htitle]), if_neg (by simp [hp, invalidEnum]),
      if_neg (by simp [hs, invalidEnum]), if_neg (by simp [hd, badDate])]
    rw [hp, hs, hd]
    exact ⟨_, _, rfl, rfl, rfl, rfl⟩

/-- C2 witness: the amended theorem at a concrete invalid priority
`urgent` (rejected with 400 on create and update) and at a concrete
title-only body (defaults applied for the absent fields). -/
theorem c2_validation_rejects_nonempty_witness :
    (create (fun _ => true) emptyTaskDB 5 7
        { title := some "T", description := none, priority := some "urgent",
          dueDate := none, status := none, bodyUserId := none }
      = (.err 400 "Priority must be low, medium, or high", emptyTaskDB) ∧
     update (fun _ => true) emptyTaskDB 5 7 "1"
        { title := some "T", description := none, priority := some "urgent",
          dueDate := none, status := none, bodyUserId := none }
      = (.err 400 "Priority must be low, medium, or high", emptyTaskDB)) ∧
    (∃ out db', create (fun _ => true) emptyTaskDB 5 7 titleOnlyBody
        = (.created 201 "Task created successfully" out, db') ∧
      out.priority = "medium" ∧ out.status = "pending" ∧
      out.dueDate = none) :=
  ⟨(c2_validation_rejects_nonempty (fun _ => true) emptyTaskDB 5 7
      { title := some "T", description := none, priority := some "urgent",
        dueDate := none, status := none, bodyUserId := none }
      "1" 1 (by decide) (by decide)).1 "urgent" rfl (by decide) (by decide),
   (c2_validation_rejects_nonempty (fun _ => true) emptyTaskDB 5 7
      titleOnlyBody "1" 1 (by decide) (by decide)).2.2.2 rfl rfl rfl⟩

/-! ## C6: the invalid-id gate of the `:id` endpoints -/

/-- Once a decimal digit has been consumed, the digit accumulator never
reports `NaN`. -/
theorem parseDecDigits_found_ne_none (cs : List Char) :
    ∀ acc, parseDecDigits cs acc true ≠ none := by
  induction cs with
  | nil => intro acc; simp [parseDecDigits]
  | cons c rest ih =>
    intro acc
    unfold parseDecDigits
    by_cases hc : c.isDigit
    · simpa [hc] using ih (acc * 10 + (c.toNat - 48))
    · simp [hc]

/-- A decimal digit is not parse-relevant whitespace, not a sign, and not
a hexadecimal marker. -/
theorem char_digit_facts (c : Char) (h : c.isDigit = true) :
    isJsSpace c = false ∧ c ≠ '-' ∧ c ≠ '+' ∧ c ≠ 'x' ∧ c ≠ 'X' := by
  refine ⟨?_, ?_, ?_, ?_, ?_⟩
  · cases hs : isJsSpace c with
    | false => rfl
    | true =>
      exfalso
      unfold isJsSpace at hs
      rcases of_decide_eq_true hs with h1 | h1 | h1 | h1 | h1 | h1 <;>
        (subst h1; exact absurd h (by decide))
  · intro h1; subst h1; exact absurd h (by decide)
  · intro h1; subst h1; exact absurd h (by decide)
  · intro h1; subst h1; exact absurd h (by decide)
  · intro h1; subst h1; exact absurd h (by decide)

/-- A nonempty all-digit character list parses successfully. -/
theorem jsParseIntCore_digits (c : Char) (rest : List Char)
    (hc : c.isDigit = true) (hrest : rest.all Char.isDigit = true) :
    jsParseIntCore (c :: rest) ≠ none := by
  obtain ⟨-, hminus, hplus, -, -⟩ := char_digit_facts c hc
  have hsign : ¬ (c = '-' ∨ c = '+') := fun h1 => h1.elim hminus hplus
  simp only [jsParseIntCore, List.headD_cons, List.tail_cons,
    Option.map_eq_none']
  rw [if_neg hsign]
  simp only [List.headD_cons, List.tail_cons]
  have hhex : ¬ (c = '0' ∧ (rest.headD ' ' = 'x' ∨ rest.headD ' ' = 'X')) := by
    rintro ⟨h0, hxx⟩
    cases rest with
    | nil =>
      rcases hxx with h1 | h1 <;> exact absurd h1 (by decide)
    | cons d rest2 =>
      rw [List.all_cons, Bool.and_eq_true] at hrest
      obtain ⟨-, -, -, hdx, hdX⟩ := char_digit_facts d hrest.1
      rw [List.headD_cons] at hxx
      rcases hxx with h1 | h1
      · exact absurd h1 hdx
      · exact absurd h1 hdX
  rw [if_neg hhex]
  have hstep : parseDecDigits (c :: rest) 0 false
      = parseDecDigits rest (0 * 10 + (c.toNat - 48)) true := by
    simp [parseDecDigits, hc]
  rw [hstep]
  intro hnone
  rw [Option.map_eq_none'] at hnone
  exact parseDecDigits_found_ne_none rest _ hnone

/-- An all-digit nonempty id string is numeric for `parseInt`. -/
theorem jsParseInt_all_digits (s : String) (hne : s.toList ≠ [])
    (hdig : s.toList.all Char.isDigit = true) : jsParseInt s ≠ none := by
  unfold jsParseInt
  obtain ⟨c, rest, hcs⟩ := List.exists_cons_of_ne_nil hne
  rw [hcs, List.all_cons, Bool.and_eq_true] at hdig
  obtain ⟨hc, hrest⟩ := hdig
  obtain ⟨hsp, -, -, -, -⟩ := char_digit_facts c hc
  rw [hcs, List.dropWhile_cons, hsp]
  simpa using jsParseIntCore_digits c rest hc hrest

/-- C6 counterexample: the id `12abc` is non-numeric, yet `parseInt`
truncates it to 12 and the lookup proceeds — the response on the empty
table is 404, not the claimed 400 invalid-id error. -/
theorem c6_counterexample :
    getTask emptyTaskDB 7 "12abc" = .err 404 "Task not found" ∧
    getTask emptyTaskDB 7 "12abc" ≠ .err 400 "Invalid task ID" ∧
    jsParseInt "12abc" = some 12 := by decide

/-- C6 (amended): GET/PUT/DELETE on `/api/tasks/:id` answer the 400
invalid-id error, before any lookup and leaving the table unchanged,
exactly when `parseInt` of the id yields `NaN`; whenever `parseInt`
yields a number — which includes every all-digit id, but also any
non-numeric id with a numeric prefix such as `12abc`, truncated to its
prefix — the invalid-id branch is not taken. -/
theorem c6_id_parse_gate (dateOk : String → Bool) (db : TaskDB) (now : Nat)
    (u : Int) (body : TaskBody) (s : String) :
    (jsParseInt s = none →
      getTask db u s = .err 400 "Invalid task ID" ∧
      update dateOk db now u s body = (.err 400 "Invalid task ID", db) ∧
      remove db u s = (.err 400 "Invalid task ID", db)) ∧
    (∀ t, jsParseInt s = some t →
      getTask db u s ≠ .err 400 "Invalid task ID" ∧
      (update dateOk db now u s body).1 ≠ .err 400 "Invalid task ID" ∧
      (remove db u s).1 ≠ .err 400 "Invalid task ID") ∧
    (s.toList ≠ [] → s.toList.all Char.isDigit = true →
      jsParseInt s ≠ none) := by
  refine ⟨?_, ?_, jsParseInt_all_digits s⟩
  · intro h
    exact ⟨by simp [getTask, h], by simp [update, h], by simp [remove, h]⟩
  · intro t h
    refine ⟨?_, ?_, ?_⟩
    · simp only [getTask, h]
      cases hg : getTaskById db t u <;> simp
    · simp only [update, h]
      split_ifs <;> try simp
      cases hu : (updateTask db now t u _).1 <;> simp
    · simp only [remove, h]
      split_ifs <;> simp

/-- C6 witness: the amended theorem at the NaN id `abc` (400 on all three
endpoints) and at the numeric id `5` (the invalid-id branch avoided). -/
theorem c6_id_parse_gate_witness :
    (getTask emptyTaskDB 7 "abc" = .err 400 "Invalid task ID" ∧
     update (fun _ => true) emptyTaskDB 0 7 "abc" titleOnlyBody
       = (.err 400 "Invalid task ID", emptyTaskDB) ∧
     remove emptyTaskDB 7 "abc" = (.err 400 "Invalid task ID", emptyTaskDB)) ∧
    (getTask emptyTaskDB 7 "5" ≠ .err 400 "Invalid task ID" ∧
     (update (fun _ => true) emptyTaskDB 0 7 "5" titleOnlyBody).1
       ≠ .err 400 "Invalid task ID" ∧
     (remove emptyTaskDB 7 "5").1 ≠ .err 400 "Invalid task ID") :=
  ⟨(c6_id_parse_gate (fun _ => true) emptyTaskDB 0 7 titleOnlyBody "abc").1
      (by decide),
   (c6_id_parse_gate (fun _ => true) emptyTaskDB 0 7 titleOnlyBody "5").2.1 5
      (by decide)⟩

/-! ## Facts about the update and delete statements -/

/-- `applyUpdate` never changes a row's id, owner, or creation time. -/
theorem applyUpdate_key (now : Nat) (t u : Int) (uf : UpdateFields)
    (r : TaskRow) :
    (applyUpdate now t u uf r).id = r.id ∧
    (applyUpdate now t u uf r).user_id = r.user_id ∧
    (applyUpdate now t u uf r).created_at = r.created_at := by
  unfold applyUpdate
  split <;> simp

/-- When no stored row matches both the id and the owner, the update
statement returns no row. -/
theorem updateTask_fst_none (db : TaskDB) (now : Nat) (t u : Int)
    (uf : UpdateFields)
    (h : ∀ r ∈ db.rows, ¬ (r.id = t ∧ r.user_id = u)) :
    (updateTask db now t u uf).1 = none := by
  simp only [updateTask]
  rw [List.find?_eq_none]
  intro x hx
  rw [List.mem_map] at hx
  obtain ⟨s, hs, rfl⟩ := hx
  obtain ⟨k1, k2, -⟩ := applyUpdate_key now t u uf s
  simpa [k1, k2] using h s hs

/-- When a stored row matches both the id and the owner, the update
statement returns a row: the first match, rewritten by the `SET`
clause — mutable fields from the request, `updated_at` refreshed, and
id, owner and creation time kept from the stored row. -/
theorem updateTask_fst_some (db : TaskDB) (now : Nat) (t u : Int)
    (uf : UpdateFields) (r : TaskRow) (hr : r ∈ db.rows) (hid : r.id = t)
    (huid : r.user_id = u) :
    ∃ out, (updateTask db now t u uf).1 = some out ∧
      out.title = uf.title ∧ out.description = uf.description ∧
      out.priority = uf.priority ∧ out.due_date = uf.dueDate ∧
      out.status = uf.status ∧ out.updated_at = now ∧
      out.id = t ∧ out.user_id = u ∧
      ∃ s, s ∈ db.rows ∧ out.created_at = s.created_at := by
  have hsome : ((db.rows.map (applyUpdate now t u uf)).find?
      (fun x => decide (x.id = t ∧ x.user_id = u))).isSome := by
    rw [List.find?_isSome]
    refine ⟨applyUpdate now t u uf r, List.mem_map_of_mem _ hr, ?_⟩
    obtain ⟨k1, k2, -⟩ := applyUpdate_key now t u uf r
    simp [k1, k2, hid, huid]
  obtain ⟨out, hout⟩ := Option.isSome_iff_exists.mp hsome
  have hfst : (updateTask db now t u uf).1 = some out := by
    simpa only [updateTask] using hout
  have hpred := List.find?_some hout
  rw [decide_eq_true_eq] at hpred
  have hmem := List.mem_of_find?_eq_some hout
  rw [List.mem_map] at hmem
  obtain ⟨s, hs, hsout⟩ := hmem
  obtain ⟨k1, k2, -⟩ := applyUpdate_key now t u uf s
  have hps : s.id = t ∧ s.user_id = u := by
    constructor
    · rw [← k1, hsout]; exact hpred.1
    · rw [← k2, hsout]; exact hpred.2
  have hform : out = applyUpdate now t u uf s := hsout.symm
  subst hform
  exact ⟨_, hfst, by simp [applyUpdate, hps.1, hps.2],
    by simp [applyUpdate, hps.1, hps.2], by simp [applyUpdate, hps.1, hps.2],
    by simp [applyUpdate, hps.1, hps.2], by simp [applyUpdate, hps.1, hps.2],
    by simp [applyUpdate, hps.1, hps.2],
    by simp [applyUpdate, hps.1, hps.2],
    by simp [applyUpdate, hps.1, hps.2],
    s, hs, by simp [applyUpdate, hps.1, hps.2]⟩

/-- When no stored row matches both the id and the owner, the delete
statement reports `false` and returns the table unchanged. -/
theorem deleteTask_no_match (db : TaskDB) (t u : Int)
    (h : ∀ r ∈ db.rows, ¬ (r.id = t ∧ r.user_id = u)) :
    deleteTask db t u = (false, db) := by
  have h1 : db.rows.any (fun r => decide (r.id = t ∧ r.user_id = u)) = false := by
    rw [List.any_eq_false]
    intro x hx
    exact fun hc => h x hx (of_decide_eq_true hc)
  have h2 : db.rows.filter (fun r => decide ¬ (r.id = t ∧ r.user_id = u))
      = db.rows := by
    rw [List.filter_eq_self]
    intro a ha
    exact decide_eq_true (h a ha)
  simp only [deleteTask, h1, h2]

/-- On a table with distinct task ids, the `DELETE ... WHERE id AND
user_id` filter removes exactly the matched row. -/
theorem filter_miss_eq_erase (l : List TaskRow) (t u : Int) (r : TaskRow)
    (hr : r ∈ l) (hid : r.id = t) (huid : r.user_id = u)
    (hnd : (l.map TaskRow.id).Nodup) :
    l.filter (fun s => ¬ (s.id = t ∧ s.user_id = u)) = l.erase r := by
  induction l with
  | nil => cases hr
  | cons x xs ih =>
    rw [List.map_cons, List.nodup_cons] at hnd
    obtain ⟨hx, hnd'⟩ := hnd
    rcases List.mem_cons.mp hr with heq | hrxs
    · have hxt : x.id = t := by rw [← heq]; exact hid
      have hxu : x.user_id = u := by rw [← heq]; exact huid
      have hbeq : (x == r) = true := by
        rw [beq_iff_eq]
        exact heq.symm
      rw [List.filter_cons, if_neg (by simp [hxt, hxu]), List.erase_cons,
        if_pos hbeq, List.filter_eq_self]
      intro a ha
      have hat : a.id ≠ t := by
        intro hat
        apply hx
        have hmm := List.mem_map_of_mem TaskRow.id ha
        rw [hxt, ← hat]
        exact hmm
      simp [hat]
    · have hxid : x.id ≠ t := by
        intro hxt
        apply hx
        have hmm := List.mem_map_of_mem TaskRow.id hrxs
        rw [hxt, ← hid]
        exact hmm
      have hbne : ¬ ((x == r) = true) := by
        rw [beq_iff_eq]
        intro hxr
        apply hxid
        rw [hxr, hid]
      rw [List.filter_cons, if_pos (by simp [hxid]), List.erase_cons,
        if_neg hbne, ih hrxs hnd']

/-! ## C4: foreign-owned tasks are indistinguishable from nonexistent ones -/

/-- C4: for GET, PUT and DELETE on `/api/tasks/:id`, any two task tables
in which no row matches both the requested id and the caller — one may
simply lack the id, the other may hold it under a different owner —
produce identical responses, namely the same 404 for GET/DELETE (and for
PUT either the same validation error or the same 404), so a caller
cannot tell a foreign-owned task from a nonexistent one. -/
theorem c4_ownership_no_existence_leak (dateOk : String → Bool)
    (db₁ db₂ : TaskDB) (now : Nat) (caller : Int) (idParam : String)
    (t : Int) (body : TaskBody) (hparse : jsParseInt idParam = some t)
    (h₁ : ∀ r ∈ db₁.rows, ¬ (r.id = t ∧ r.user_id = caller))
    (h₂ : ∀ r ∈ db₂.rows, ¬ (r.id = t ∧ r.user_id = caller)) :
    getTask db₁ caller idParam = getTask db₂ caller idParam ∧
    getTask db₁ caller idParam = .err 404 "Task not found" ∧
    (update dateOk db₁ now caller idParam body).1
      = (update dateOk db₂ now caller idParam body).1 ∧
    (remove db₁ caller idParam).1 = (remove db₂ caller idParam).1 ∧
    (remove db₁ caller idParam).1 = .err 404 "Task not found" := by
  have hget : ∀ db : TaskDB, (∀ r ∈ db.rows, ¬ (r.id = t ∧ r.user_id = caller)) →
      getTask db caller idParam = .err 404 "Task not found" := by
    intro db hdb
    have hg : getTaskById db t caller = none := by
      unfold getTaskById
      rw [List.find?_eq_none]
      intro x hx
      simpa using hdb x hx
    simp [getTask, hparse, hg]
  have hupd : ∀ db : TaskDB, (∀ r ∈ db.rows, ¬ (r.id = t ∧ r.user_id = caller)) →
      (update dateOk db now caller idParam body).1
        = (if blankTitle body.title then .err 400 "Title is required"
           else if invalidEnum validPriorities body.priority then
             .err 400 "Priority must be low, medium, or high"
           else if invalidEnum validStatuses body.status then
             .err 400 "Status must be pending, in_progress, or completed"
           else if badDate dateOk body.dueDate then
             .err 400 "Invalid due date format"
           else .err 404 "Task not found") := by
    intro db hdb
    simp only [update, hparse]
    split_ifs <;> try rfl
    rw [updateTask_fst_none db now t caller _ hdb]
  have hrm : ∀ db : TaskDB, (∀ r ∈ db.rows, ¬ (r.id = t ∧ r.user_id = caller)) →
      (remove db caller idParam).1 = .err 404 "Task not found" := by
    intro db hdb
    simp [remove, hparse, deleteTask_no_match db t caller hdb]
  exact ⟨(hget db₁ h₁).trans (hget db₂ h₂).symm, hget db₁ h₁,
    (hupd db₁ h₁).trans (hupd db₂ h₂).symm,
    (hrm db₁ h₁).trans (hrm db₂ h₂).symm, hrm db₁ h₁⟩

/-- C4 witness: the empty table versus a table whose task 1 belongs to
user 7, queried by caller 9: GET, PUT and DELETE answer identically. -/
theorem c4_ownership_no_existence_leak_witness :
    getTask emptyTaskDB 9 "1" = getTask demoTaskDB 9 "1" ∧
    getTask emptyTaskDB 9 "1" = .err 404 "Task not found" ∧
    (update (fun _ => true) emptyTaskDB 5 9 "1" titleOnlyBody).1
      = (update (fun _ => true) demoTaskDB 5 9 "1" titleOnlyBody).1 ∧
    (remove emptyTaskDB 9 "1").1 = (remove demoTaskDB 9 "1").1 ∧
    (remove emptyTaskDB 9 "1").1 = .err 404 "Task not found" :=
  c4_ownership_no_existence_leak (fun _ => true) emptyTaskDB demoTaskDB 5 9
    "1" 1 titleOnlyBody (by decide) (by decide) (by decide)

/-! ## C8: delete reports precisely whether a row was removed -/

/-- C8: when no row matches the id under the caller, delete reports
`false`, the endpoint answers 404, and the task table is completely
unchanged; when the caller owns the matched task (ids being unique in
the table), delete reports `true` and removes exactly that one row,
leaving every other row in place. -/
theorem c8_delete_semantics (db : TaskDB) (t u : Int) (idParam : String) :
    ((∀ r ∈ db.rows, ¬ (r.id = t ∧ r.user_id = u)) →
      deleteTask db t u = (false, db) ∧
      (jsParseInt idParam = some t →
        remove db u idParam = (.err 404 "Task not found", db))) ∧
    (∀ r, r ∈ db.rows → r.id = t → r.user_id = u →
      (db.rows.map TaskRow.id).Nodup →
      (deleteTask db t u).1 = true ∧
      (deleteTask db t u).2.rows = db.rows.erase r ∧
      (deleteTask db t u).2.rows.length + 1 = db.rows.length ∧
      ∀ s, s ∈ db.rows → s ≠ r → s ∈ (deleteTask db t u).2.rows) := by
  constructor
  · intro h
    have hdel := deleteTask_no_match db t u h
    refine ⟨hdel, fun hp => ?_⟩
    simp [remove, hp, hdel]
  · intro r hr hid huid hnd
    have hrows : (deleteTask db t u).2.rows = db.rows.erase r := by
      simp only [deleteTask]
      exact filter_miss_eq_erase db.rows t u r hr hid huid hnd
    refine ⟨?_, hrows, ?_, ?_⟩
    · simp only [deleteTask]
      rw [List.any_eq_true]
      exact ⟨r, hr, by simp [hid, huid]⟩
    · rw [hrows, List.length_erase_of_mem hr]
      have : 1 ≤ db.rows.length := List.length_pos.mpr (by
        intro hnil
        rw [hnil] at hr
        cases hr)
      omega
    · intro s hs hsr
      rw [hrows]
      exact (List.mem_erase_of_ne hsr).mpr hs

/-- C8 witness: caller 9 cannot delete task 1 of user 7 (404, table
unchanged); owner 7 deletes it, leaving the empty table. -/
theorem c8_delete_semantics_witness :
    (deleteTask demoTaskDB 1 9 = (false, demoTaskDB) ∧
     remove demoTaskDB 9 "1" = (.err 404 "Task not found", demoTaskDB)) ∧
    ((deleteTask demoTaskDB 1 7).1 = true ∧
     (deleteTask demoTaskDB 1 7).2.rows = demoTaskDB.rows.erase demoTaskRow ∧
     (deleteTask demoTaskDB 1 7).2.rows.length + 1 = demoTaskDB.rows.length) :=
  ⟨⟨((c8_delete_semantics demoTaskDB 1 9 "1").1 (by decide)).1,
    ((c8_delete_semantics demoTaskDB 1 9 "1").1 (by decide)).2 (by decide)⟩,
   ⟨((c8_delete_semantics demoTaskDB 1 7 "1").2 demoTaskRow (by decide)
      (by decide) (by decide) (by decide)).1,
    ((c8_delete_semantics demoTaskDB 1 7 "1").2 demoTaskRow (by decide)
      (by decide) (by decide) (by decide)).2.1,
    ((c8_delete_semantics demoTaskDB 1 7 "1").2 demoTaskRow (by decide)
      (by decide) (by decide) (by decide)).2.2.1⟩⟩

/-! ## C3: update is a full replace falling back to defaults -/

/-- C3: updating an owned task with a valid title and every optional
field omitted answers 200 with a task whose omitted fields hold the
documented defaults — description null, priority medium, status pending,
due date null — not the previously stored values, and whose updated
timestamp is refreshed to the current time; when no row matches the id
under the caller (wrong id or foreign owner), the answer is the 404
NotFound. -/
theorem c3_update_full_replace (dateOk : String → Bool) (db : TaskDB)
    (now : Nat) (caller : Int) (idParam : String) (t : Int) (ti : String)
    (body : TaskBody) (hparse : jsParseInt idParam = some t)
    (hti : body.title = some ti) (htine : ti ≠ "") (htitrim : jsTrim ti ≠ "")
    (hdesc : body.description = none) (hpri : body.priority = none)
    (hstat : body.status = none) (hdue : body.dueDate = none) :
    ((∃ r ∈ db.rows, r.id = t ∧ r.user_id = caller) →
      ∃ out db', update dateOk db now caller idParam body
          = (.updated 200 "Task updated successfully" out, db') ∧
        out.description = none ∧ out.priority = "medium" ∧
        out.status = "pending" ∧ out.dueDate = none ∧
        out.updatedAt = now ∧ out.title = jsTrim ti ∧
        out.id = t ∧ out.userId = caller) ∧
    ((∀ r ∈ db.rows, ¬ (r.id = t ∧ r.user_id = caller)) →
      (update dateOk db now caller idParam body).1
        = .err 404 "Task not found") := by
  have hblank : ¬ (blankTitle body.title = true) := by
    rw [hti]
    simp [blankTitle, htine, htitrim]
  have hinvp : ¬ (invalidEnum validPriorities body.priority = true) := by
    rw [hpri]
    simp [invalidEnum]
  have hinvs : ¬ (invalidEnum validStatuses body.status = true) := by
    rw [hstat]
    simp [invalidEnum]
  have hbd : ¬ (badDate dateOk body.dueDate = true) := by
    rw [hdue]
    simp [badDate]
  constructor
  · rintro ⟨r, hr, hrid, hruid⟩
    obtain ⟨out, hfst, p1, p2, p3, p4, p5, p6, p7, p8, -⟩ :=
      updateTask_fst_some db now t caller
        { title := jsTrim (body.title.getD ""),
          description := jsOrNull (body.description.map jsTrim),
          priority := jsOr body.priority "medium",
          dueDate := jsOrNull body.dueDate,
          status := jsOr body.status "pending" } r hr hrid hruid
    have hupd : update dateOk db now caller idParam body
        = (.updated 200 "Task updated successfully" (toTaskOut out),
           (updateTask db now t caller
             { title := jsTrim (body.title.getD ""),
               description := jsOrNull (body.description.map jsTrim),
               priority := jsOr body.priority "medium",
               dueDate := jsOrNull body.dueDate,
               status := jsOr body.status "pending" }).2) := by
      simp only [update, hparse]
      rw [if_neg hblank, if_neg hinvp, if_neg hinvs, if_neg hbd, hfst]
    refine ⟨toTaskOut out, _, hupd, ?_, ?_, ?_, ?_, ?_, ?_, ?_, ?_⟩
    · simp [toTaskOut, p2, hdesc, jsOrNull]
    · simp [toTaskOut, p3, hpri, jsOr]
    · simp [toTaskOut, p5, hstat, jsOr]
    · simp [toTaskOut, p4, hdue, jsOrNull]
    · simp [toTaskOut, p6]
    · simp [toTaskOut, p1, hti]
    · simp [toTaskOut, p7]
    · simp [toTaskOut, p8]
  · intro h
    simp only [update, hparse]
    rw [if_neg hblank, if_neg hinvp, if_neg hinvs, if_neg hbd,
      updateTask_fst_none db now t caller _ h]

/-- C3 witness: updating task 1 of user 7 with only the title `T` resets
description, priority, status and due date to their defaults and stamps
the update time, while the same request from caller 9 on the empty
table is a 404. -/
theorem c3_update_full_replace_witness :
    (∃ out db', update (fun _ => true) demoTaskDB 5 7 "1"
        { title := some "T", description := none, priority := none,
          dueDate := none, status := none, bodyUserId := none }
        = (.updated 200 "Task updated successfully" out, db') ∧
      out.description = none ∧ out.priority = "medium" ∧
      out.status = "pending" ∧ out.dueDate = none ∧
      out.updatedAt = 5 ∧ out.title = jsTrim "T" ∧
      out.id = 1 ∧ out.userId = 7) ∧
    (update (fun _ => true) emptyTaskDB 5 7 "1"
        { title := some "T", description := none, priority := none,
          dueDate := none, status := none, bodyUserId := none }).1
      = .err 404 "Task not found" :=
  ⟨(c3_update_full_replace (fun _ => true) demoTaskDB 5 7 "1" 1 "T"
      { title := some "T", description := none, priority := none,
        dueDate := none, status := none, bodyUserId := none }
      (by decide) rfl (by decide) (by decide) rfl rfl rfl rfl).1
      ⟨demoTaskRow, by decide, by decide, by decide⟩,
   (c3_update_full_replace (fun _ => true) emptyTaskDB 5 7 "1" 1 "T"
      { title := some "T", description := none, priority := none,
        dueDate := none, status := none, bodyUserId := none }
      (by decide) rfl (by decide) (by decide) rfl rfl rfl rfl).2
      (by decide)⟩

/-! ## C9: create-then-fetch round-trip -/

/-- C9: creating a task with every field set — non-blank trimmed title,
nonempty trimmed description, valid priority and status, nonempty
parseable due date — answers 201 with exactly the submitted values, and
fetching the returned id as the same caller finds the stored row with
those same values verbatim, the id and both timestamps being the only
server-generated parts. -/
theorem c9_create_then_get_roundtrip (dateOk : String → Bool) (db : TaskDB)
    (now : Nat) (caller : Int) (body : TaskBody) (ti d pr st dd : String)
    (hfresh : ∀ r ∈ db.rows, r.id ≠ db.nextId)
    (hti : body.title = some ti) (htine : ti ≠ "") (htitrim : jsTrim ti = ti)
    (hd : body.description = some d) (hdne : d ≠ "") (hdtrim : jsTrim d = d)
    (hpr : body.priority = some pr) (hprv : pr ∈ validPriorities)
    (hst : body.status = some st) (hstv : st ∈ validStatuses)
    (hdd : body.dueDate = some dd) (hddne : dd ≠ "")
    (hddok : dateOk dd = true) :
    ∃ out db', create dateOk db now caller body
        = (.created 201 "Task created successfully" out, db') ∧
      out.title = ti ∧ out.description = some d ∧ out.priority = pr ∧
      out.dueDate = some dd ∧ out.status = st ∧
      getTaskById db' out.id caller
        = some { id := out.id, user_id := caller, title := ti,
                 description := some d, priority := pr,
                 due_date := some dd, status := st,
                 created_at := now, updated_at := now } := by
  have hprne : pr ≠ "" := by
    intro h0
    rw [h0] at hprv
    exact absurd hprv (by decide)
  have hstne : st ≠ "" := by
    intro h0
    rw [h0] at hstv
    exact absurd hstv (by decide)
  have hblank : ¬ (blankTitle body.title = true) := by
    rw [hti]
    simp [blankTitle, htine, htitrim]
  have hinvp : ¬ (invalidEnum validPriorities body.priority = true) := by
    rw [hpr]
    simp [invalidEnum, hprv]
  have hinvs : ¬ (invalidEnum validStatuses body.status = true) := by
    rw [hst]
    simp [invalidEnum, hstv]
  have hbd : ¬ (badDate dateOk body.dueDate = true) := by
    rw [hdd]
    simp [badDate, hddok]
  unfold create
  rw [if_neg hblank, if_neg hinvp, if_neg hinvs, if_neg hbd]
  refine ⟨_, _, rfl, ?_, ?_, ?_, ?_, ?_, ?_⟩
  · simp [createTask, toTaskOut, hti, htitrim]
  · simp [createTask, toTaskOut, hd, hdtrim, hdne, jsOrNull]
  · simp [createTask, toTaskOut, hpr, hprne, jsOr]
  · simp [createTask, toTaskOut, hdd, hddne, jsOrNull]
  · simp [createTask, toTaskOut, hst, hstne, jsOr]
  · have hn : db.rows.find?
        (fun r => decide (r.id = db.nextId ∧ r.user_id = caller)) = none := by
      rw [List.find?_eq_none]
      intro x hx
      simp [hfresh x hx]
    simp only [createTask, toTaskOut]
    unfold getTaskById
    rw [List.find?_append, hn, Option.none_or,
      List.find?_cons_of_pos _ (by simp)]
    simp [hti, htitrim, hd, hdtrim, hdne, hpr, hprne, hdd, hddne, hst,
      hstne, jsOr, jsOrNull]

/-- C9 witness: the round-trip at a fully specified concrete task on the
empty table. -/
theorem c9_create_then_get_roundtrip_witness :
    ∃ out db', create (fun _ => true) emptyTaskDB 5 7
        { title := some "Buy milk", description := some "2 liters",
          priority := some "high", dueDate := some "2025-01-02",
          status := some "in_progress", bodyUserId := none }
        = (.created 201 "Task created successfully" out, db') ∧
      out.title = "Buy milk" ∧ out.description = some "2 liters" ∧
      out.priority = "high" ∧ out.dueDate = some "2025-01-02" ∧
      out.status = "in_progress" ∧
      getTaskById db' out.id 7
        = some { id := out.id, user_id := 7, title := "Buy milk",
                 description := some "2 liters", priority := "high",
                 due_date := some "2025-01-02", status := "in_progress",
                 created_at := 5, updated_at := 5 } :=
  c9_create_then_get_roundtrip (fun _ => true) emptyTaskDB 5 7
    { title := some "Buy milk", description := some "2 liters",
      priority := some "high", dueDate := some "2025-01-02",
      status := some "in_progress", bodyUserId := none }
    "Buy milk" "2 liters" "high" "in_progress" "2025-01-02"
    (by decide) rfl (by decide) (by decide) rfl (by decide) (by decide)
    rfl (by decide) rfl (by decide) rfl (by decide) rfl

/-! ## C10: operations preserve task identity and ownership -/

/-- C10: create stores the task under the token's user id only — the
request body (including any smuggled `userId` field) cannot influence the
owner, and every row the insert adds belongs to the caller — and a
successful update returns a row with the same id, the same owner and the
same creation timestamp as the stored row, the update statement leaving
the (id, owner, creation-time) triple of every row in the table
unchanged. -/
theorem c10_identity_and_ownership (dateOk : String → Bool) (db : TaskDB)
    (now : Nat) (u : Int) (b₁ b₂ : TaskBody) (t : Int) (uf : UpdateFields) :
    (b₁.title = b₂.title → b₁.description = b₂.description →
     b₁.priority = b₂.priority → b₁.dueDate = b₂.dueDate →
     b₁.status = b₂.status →
      create dateOk db now u b₁ = create dateOk db now u b₂) ∧
    (∀ st msg out db',
      create dateOk db now u b₁ = (.created st msg out, db') →
      out.userId = u ∧ ∀ r, r ∈ db'.rows → r ∉ db.rows → r.user_id = u) ∧
    (∀ out, (updateTask db now t u uf).1 = some out →
      out.id = t ∧ out.user_id = u ∧
      ∃ s, s ∈ db.rows ∧ out.created_at = s.created_at) ∧
    ((updateTask db now t u uf).2.rows.map
        (fun r => (r.id, r.user_id, r.created_at))
      = db.rows.map (fun r => (r.id, r.user_id, r.created_at))) := by
  refine ⟨?_, ?_, ?_, ?_⟩
  · intro h1 h2 h3 h4 h5
    unfold create
    rw [h1, h2, h3, h4, h5]
  · intro st msg out db' h
    unfold create at h
    split_ifs at h <;> try simp at h
    obtain ⟨⟨-, -, hout⟩, hdb⟩ := h
    constructor
    · rw [← hout]
      simp [toTaskOut, createTask]
    · intro r hrin hrnot
      rw [← hdb] at hrin
      simp only [createTask] at hrin
      rw [List.mem_append] at hrin
      rcases hrin with h' | h'
      · exact absurd h' hrnot
      · rw [List.mem_singleton] at h'
        simp [h']
  · intro out hout
    simp only [updateTask] at hout
    have hpred := List.find?_some hout
    rw [decide_eq_true_eq] at hpred
    have hmem := List.mem_of_find?_eq_some hout
    rw [List.mem_map] at hmem
    obtain ⟨s, hs, hsout⟩ := hmem
    obtain ⟨-, -, k3⟩ := applyUpdate_key now t u uf s
    refine ⟨hpred.1, hpred.2, s, hs, ?_⟩
    rw [← hsout]
    exact k3
  · simp only [updateTask]
    rw [List.map_map]
    apply List.map_congr_left
    intro a ha
    obtain ⟨k1, k2, k3⟩ := applyUpdate_key now t u uf a
    simp [Function.comp, k1, k2, k3]

/-- C10 witness: a smuggled body `userId` of 999 does not change the
outcome of create; the concrete successful create stores owner 7; the
concrete successful update of task 1 keeps id, owner and creation
time. -/
theorem c10_identity_and_ownership_witness :
    create (fun _ => true) emptyTaskDB 5 7 titleOnlyBody
      = create (fun _ => true) emptyTaskDB 5 7
          { title := some "T", description := none, priority := none,
            dueDate := none, status := none, bodyUserId := some 999 } ∧
    ({ id := 1, userId := 7, title := "T", description := none,
       priority := "medium", dueDate := none, status := "pending",
       createdAt := 5, updatedAt := 5 } : TaskOut).userId = 7 ∧
    ({ id := 1, user_id := 7, title := "N", description := none,
       priority := "high", due_date := none, status := "completed",
       created_at := 0, updated_at := 5 } : TaskRow).id = 1 :=
  ⟨(c10_identity_and_ownership (fun _ => true) emptyTaskDB 5 7 titleOnlyBody
      { title := some "T", description := none, priority := none,
        dueDate := none, status := none, bodyUserId := some 999 } 1
      { title := "N", description := none, priority := "high",
        dueDate := none, status := "completed" }).1 rfl rfl rfl rfl rfl,
   ((c10_identity_and_ownership (fun _ => true) emptyTaskDB 5 7 titleOnlyBody
      titleOnlyBody 1
      { title := "N", description := none, priority := "high",
        dueDate := none, status := "completed" }).2.1 201
      "Task created successfully"
      { id := 1, userId := 7, title := "T", description := none,
        priority := "medium", dueDate := none, status := "pending",
        createdAt := 5, updatedAt := 5 }
      { rows := [{ id := 1, user_id := 7, title := "T", description := none,
                   priority := "medium", due_date := none,
                   status := "pending", created_at := 5, updated_at := 5 }],
        nextId := 2 }
      (by decide)).1,
   ((c10_identity_and_ownership (fun _ => true) demoTaskDB 5 7 titleOnlyBody
      titleOnlyBody 1
      { title := "N", description := none, priority := "high",
        dueDate := none, status := "completed" }).2.2.1
      { id := 1, user_id := 7, title := "N", description := none,
        priority := "high", due_date := none, status := "completed",
        created_at := 0, updated_at := 5 }
      (by decide)).1⟩

end TaskManager
